import Mathlib

/-!
Shallow embedding of the marketing-data reconciliation pipeline of this
repository: `process_data` from src/data_processing.py, and the
`_detect_anomalies` routines from src/report_generator/pdf_report.py and
src/report_generator/ppt_report.py.

Pandas float cells are modelled by `FVal`: a rational number, one of the two
infinities, or NaN.  Pandas stores a missing float cell as NaN, so NaN doubles
as the null of the unified dataset.  Float arithmetic is modelled over ℚ.
-/

/-- A pandas float cell: a finite value, one of the infinities, or NaN.
Pandas uses NaN both for a missing (null) cell and as the not-a-number
result of 0/0. -/
inductive FVal where
  | num (q : ℚ)
  | pinf
  | ninf
  | nan
deriving DecidableEq

/-- IEEE-754-style division as pandas performs it on float columns: a zero
denominator with a positive (negative) numerator gives +∞ (−∞), 0/0 gives
NaN, and NaN propagates through.  Negative zero is not modelled; it does not
arise from the sums that feed the divisions of this pipeline. -/
def FVal.div : FVal → FVal → FVal
  | FVal.nan, _ => FVal.nan
  | _, FVal.nan => FVal.nan
  | FVal.num a, FVal.num b =>
      if b = 0 then
        if a = 0 then FVal.nan else if 0 < a then FVal.pinf else FVal.ninf
      else FVal.num (a / b)
  | FVal.pinf, FVal.num b => if b < 0 then FVal.ninf else FVal.pinf
  | FVal.ninf, FVal.num b => if b < 0 then FVal.pinf else FVal.ninf
  | FVal.num _, FVal.pinf => FVal.num 0
  | FVal.num _, FVal.ninf => FVal.num 0
  | FVal.pinf, FVal.pinf => FVal.nan
  | FVal.pinf, FVal.ninf => FVal.nan
  | FVal.ninf, FVal.pinf => FVal.nan
  | FVal.ninf, FVal.ninf => FVal.nan

/-- The row-level post-step
`merged[col].replace([inf, -inf], nan)` of data_processing.py line 84. -/
def replaceInf : FVal → FVal
  | FVal.pinf => FVal.nan
  | FVal.ninf => FVal.nan
  | v => v

/-- The finite value of a cell, with NaN read as 0 (used to state the
skipna summation policy). -/
def FVal.orZero : FVal → ℚ
  | FVal.num q => q
  | _ => 0

/-- pandas Series.sum with the default skipna=True: NaN cells contribute
nothing and an empty or all-NaN column sums to 0.  (Infinities never occur
in the columns this is applied to.) -/
def fsum : List FVal → ℚ
  | [] => 0
  | FVal.num q :: rest => q + fsum rest
  | _ :: rest => fsum rest

/-- pandas Series.mean with the default skipna=True: the arithmetic mean of
the non-NaN entries, NaN when there are none. -/
def fmean (l : List FVal) : FVal :=
  let qs := l.filterMap (fun v => match v with | FVal.num q => some q | _ => none)
  if qs.length = 0 then FVal.nan else FVal.num (qs.sum / (qs.length : ℚ))

/-- A date cell as held by a dataframe column: either a raw (unparsed)
value as read from the CSV, or an already converted datetime, modelled as
an integer timestamp. -/
inductive DateVal where
  | raw (s : String)
  | ts (n : ℤ)
deriving DecidableEq

/-- Model of datetime parsing: an executable injection of the raw string
into timestamps.  No stated property depends on the actual encoding. -/
def parseDate (s : String) : ℤ :=
  s.toList.foldl (fun a c => a * 256 + (c.toNat : ℤ)) 0

/-- pd.to_datetime on a date cell: raw values are parsed, already converted
values are left alone. -/
def to_datetime : DateVal → DateVal
  | DateVal.raw s => DateVal.ts (parseDate s)
  | DateVal.ts n => DateVal.ts n

/-- The timestamp a date cell denotes after conversion. -/
def DateVal.toTs : DateVal → ℤ
  | DateVal.raw s => parseDate s
  | DateVal.ts n => n

/-- A row of traffic.csv: date, location, campaign_id, impressions. -/
structure TrafficRow where
  date : DateVal
  location : String
  campaign_id : String
  impressions : FVal
deriving DecidableEq

/-- A row of clicks.csv: date, campaign_id, clicks, conversions, spend. -/
structure ClicksRow where
  date : DateVal
  campaign_id : String
  clicks : FVal
  conversions : FVal
  spend : FVal
deriving DecidableEq

/-- A row of weather.csv: date, location, temperature_c, rainfall_mm. -/
structure WeatherRow where
  date : DateVal
  location : String
  temperature_c : FVal
  rainfall_mm : FVal
deriving DecidableEq

/-- A traffic row after the date column has been converted to datetime. -/
structure TrafficRowC where
  date : ℤ
  location : String
  campaign_id : String
  impressions : FVal
deriving DecidableEq

/-- A clicks row after date conversion. -/
structure ClicksRowC where
  date : ℤ
  campaign_id : String
  clicks : FVal
  conversions : FVal
  spend : FVal
deriving DecidableEq

/-- A weather row after date conversion. -/
structure WeatherRowC where
  date : ℤ
  location : String
  temperature_c : FVal
  rainfall_mm : FVal
deriving DecidableEq

/-- Date conversion of a traffic row. -/
def convertTraffic (r : TrafficRow) : TrafficRowC :=
  ⟨r.date.toTs, r.location, r.campaign_id, r.impressions⟩

/-- Date conversion of a clicks row. -/
def convertClicks (r : ClicksRow) : ClicksRowC :=
  ⟨r.date.toTs, r.campaign_id, r.clicks, r.conversions, r.spend⟩

/-- Date conversion of a weather row. -/
def convertWeather (r : WeatherRow) : WeatherRowC :=
  ⟨r.date.toTs, r.location, r.temperature_c, r.rainfall_mm⟩

/-- Key of the traffic aggregation: (date, campaign_id, location). -/
def trafficKey (r : TrafficRowC) : ℤ × String × String :=
  (r.date, r.campaign_id, r.location)

/-- Key of the clicks aggregation: (date, campaign_id). -/
def clicksKey (r : ClicksRowC) : ℤ × String :=
  (r.date, r.campaign_id)

/-- Key of the weather aggregation: (date, location). -/
def weatherKey (r : WeatherRowC) : ℤ × String :=
  (r.date, r.location)

/-- A row of the aggregated traffic frame. -/
structure TrafficAgg where
  date : ℤ
  campaign_id : String
  location : String
  impressions : ℚ
deriving DecidableEq

/-- A row of the aggregated clicks frame. -/
structure ClicksAgg where
  date : ℤ
  campaign_id : String
  clicks : ℚ
  conversions : ℚ
  spend : ℚ
deriving DecidableEq

/-- A row of the aggregated weather frame. -/
structure WeatherAgg where
  date : ℤ
  location : String
  temperature_c : FVal
  rainfall_mm : ℚ
deriving DecidableEq

/-- traffic_df.groupby(["date", "campaign_id", "location"]).agg(impressions
sum): one output row per distinct key, carrying the skipna sum of the
group's impressions.  (pandas emits group keys in sorted order; the key
order is immaterial to every stated property, so the model uses the order
produced by List.dedup.) -/
def mkTrafficAgg (rows : List TrafficRowC) (k : ℤ × String × String) : TrafficAgg :=
  ⟨k.1, k.2.1, k.2.2,
    fsum ((rows.filter (fun r => trafficKey r = k)).map (fun r => r.impressions))⟩

def traffic_agg (rows : List TrafficRowC) : List TrafficAgg :=
  ((rows.map trafficKey).dedup).map (mkTrafficAgg rows)

/-- clicks_df.groupby(["date", "campaign_id"]).agg(clicks, conversions,
spend sums). -/
def mkClicksAgg (rows : List ClicksRowC) (k : ℤ × String) : ClicksAgg :=
  ⟨k.1, k.2,
    fsum ((rows.filter (fun r => clicksKey r = k)).map (fun r => r.clicks)),
    fsum ((rows.filter (fun r => clicksKey r = k)).map (fun r => r.conversions)),
    fsum ((rows.filter (fun r => clicksKey r = k)).map (fun r => r.spend))⟩

def clicks_agg (rows : List ClicksRowC) : List ClicksAgg :=
  ((rows.map clicksKey).dedup).map (mkClicksAgg rows)

/-- weather_df.groupby(["date", "location"]).agg(temperature_c mean,
rainfall_mm sum). -/
def mkWeatherAgg (rows : List WeatherRowC) (k : ℤ × String) : WeatherAgg :=
  ⟨k.1, k.2,
    fmean ((rows.filter (fun r => weatherKey r = k)).map (fun r => r.temperature_c)),
    fsum ((rows.filter (fun r => weatherKey r = k)).map (fun r => r.rainfall_mm))⟩

def weather_agg (rows : List WeatherRowC) : List WeatherAgg :=
  ((rows.map weatherKey).dedup).map (mkWeatherAgg rows)

/-- A row of the traffic-clicks left merge. -/
structure Merged1 where
  date : ℤ
  campaign_id : String
  location : String
  impressions : ℚ
  clicks : FVal
  conversions : FVal
  spend : FVal
deriving DecidableEq

/-- pd.merge(traffic_agg, clicks_agg, on=["date", "campaign_id"],
how="left"): every left row survives; each matching right row produces one
output row, and a left row with no match gets NaN click fields. -/
def expandClicks (c : List ClicksAgg) (tr : TrafficAgg) : List Merged1 :=
  if (c.filter (fun cr => cr.date = tr.date ∧ cr.campaign_id = tr.campaign_id)).isEmpty then
    [⟨tr.date, tr.campaign_id, tr.location, tr.impressions, FVal.nan, FVal.nan, FVal.nan⟩]
  else
    (c.filter (fun cr => cr.date = tr.date ∧ cr.campaign_id = tr.campaign_id)).map (fun cr =>
      ⟨tr.date, tr.campaign_id, tr.location, tr.impressions,
        FVal.num cr.clicks, FVal.num cr.conversions, FVal.num cr.spend⟩)

def merge1 (t : List TrafficAgg) (c : List ClicksAgg) : List Merged1 :=
  t.flatMap (expandClicks c)

/-- A row of the second left merge, adding the weather columns. -/
structure Merged2 where
  date : ℤ
  campaign_id : String
  location : String
  impressions : ℚ
  clicks : FVal
  conversions : FVal
  spend : FVal
  temperature_c : FVal
  rainfall_mm : FVal
deriving DecidableEq

/-- pd.merge(merged, weather_agg, on=["date", "location"], how="left"). -/
def expandWeather (w : List WeatherAgg) (mr : Merged1) : List Merged2 :=
  if (w.filter (fun wr => wr.date = mr.date ∧ wr.location = mr.location)).isEmpty then
    [⟨mr.date, mr.campaign_id, mr.location, mr.impressions,
      mr.clicks, mr.conversions, mr.spend, FVal.nan, FVal.nan⟩]
  else
    (w.filter (fun wr => wr.date = mr.date ∧ wr.location = mr.location)).map (fun wr =>
      ⟨mr.date, mr.campaign_id, mr.location, mr.impressions,
        mr.clicks, mr.conversions, mr.spend, wr.temperature_c, FVal.num wr.rainfall_mm⟩)

def merge2 (m : List Merged1) (w : List WeatherAgg) : List Merged2 :=
  m.flatMap (expandWeather w)

/-- A Unified Record: one row of the final merged dataset, including the
four derived ratio columns. -/
structure URow where
  date : ℤ
  campaign_id : String
  location : String
  impressions : ℚ
  clicks : FVal
  conversions : FVal
  spend : FVal
  temperature_c : FVal
  rainfall_mm : FVal
  ctr : FVal
  cpc : FVal
  conversion_rate : FVal
  cpa : FVal
deriving DecidableEq

/-- The (date, campaign_id, location) grain of a Unified Record. -/
def URow.key (r : URow) : ℤ × String × String :=
  (r.date, r.campaign_id, r.location)

/-- Lines 77-84 of data_processing.py: the row-level ratio columns, with
infinities from a zero denominator replaced by NaN afterwards. -/
def addRatios (r : Merged2) : URow :=
  ⟨r.date, r.campaign_id, r.location, r.impressions,
    r.clicks, r.conversions, r.spend, r.temperature_c, r.rainfall_mm,
    replaceInf (FVal.div r.clicks (FVal.num r.impressions)),
    replaceInf (FVal.div r.spend r.clicks),
    replaceInf (FVal.div r.conversions r.clicks),
    replaceInf (FVal.div r.spend r.conversions)⟩

/-- The Overall Summary record (the "overall" dict). -/
structure Overall where
  total_impressions : ℚ
  total_clicks : ℚ
  total_conversions : ℚ
  total_spend : ℚ
  overall_ctr : ℚ
  overall_cpc : ℚ
  overall_cvr : ℚ
  overall_cpa : ℚ
deriving DecidableEq

/-- Lines 86-96 of data_processing.py: totals are skipna column sums over
the merged dataset, and each ratio is total_x/total_y guarded by Python
truthiness of the denominator (0.0 when the denominator total is 0). -/
def mkOverall (rows : List URow) : Overall :=
  let ti := fsum (rows.map (fun r => FVal.num r.impressions))
  let tc := fsum (rows.map (fun r => r.clicks))
  let tv := fsum (rows.map (fun r => r.conversions))
  let ts := fsum (rows.map (fun r => r.spend))
  ⟨ti, tc, tv, ts,
    if ti = 0 then 0 else tc / ti,
    if tc = 0 then 0 else ts / tc,
    if tc = 0 then 0 else tv / tc,
    if tv = 0 then 0 else ts / tv⟩

/-- A row of the Campaign Summary. -/
structure CampaignRow where
  campaign_id : String
  impressions : ℚ
  clicks : ℚ
  conversions : ℚ
  spend : ℚ
  ctr : FVal
  cpc : FVal
  cvr : FVal
  cpa : FVal
deriving DecidableEq

/-- Lines 98-112 of data_processing.py: group the merged dataset by
campaign_id, sum the four base metrics (skipna), and compute the four
ratios by plain division.  Note: unlike the row-level ratios, these are
not passed through the inf-to-NaN replacement. -/
def mkCampaignRow (rows : List URow) (cid : String) : CampaignRow :=
  let grp := rows.filter (fun r => r.campaign_id = cid)
  let imp := fsum (grp.map (fun r => FVal.num r.impressions))
  let cl := fsum (grp.map (fun r => r.clicks))
  let cv := fsum (grp.map (fun r => r.conversions))
  let sp := fsum (grp.map (fun r => r.spend))
  ⟨cid, imp, cl, cv, sp,
    FVal.div (FVal.num cl) (FVal.num imp),
    FVal.div (FVal.num sp) (FVal.num cl),
    FVal.div (FVal.num cv) (FVal.num cl),
    FVal.div (FVal.num sp) (FVal.num cv)⟩

def campaign_summary (rows : List URow) : List CampaignRow :=
  ((rows.map (fun r => r.campaign_id)).dedup).map (mkCampaignRow rows)

/-- The pair returned by process_data: the merged (unified) dataset and the
metrics dict (overall + campaign summary). -/
structure ProcOutput where
  merged : List URow
  overall : Overall
  campaigns : List CampaignRow
deriving DecidableEq

/-- The computational core of process_data on date-converted inputs:
aggregate the three frames, left-join traffic with clicks on
(date, campaign_id) and then with weather on (date, location), add the
row-level ratios, and build the overall and campaign summaries. -/
def process_data (t : List TrafficRowC) (c : List ClicksRowC) (w : List WeatherRowC) :
    ProcOutput :=
  let merged := (merge2 (merge1 (traffic_agg t) (clicks_agg c)) (weather_agg w)).map addRatios
  ⟨merged, mkOverall merged, campaign_summary merged⟩

/-- The three dataframes a caller passes to process_data, as the caller
holds them. -/
structure RawInputs where
  traffic_df : List TrafficRow
  clicks_df : List ClicksRow
  weather_df : List WeatherRow
deriving DecidableEq

/-- A call to process_data as the caller observes it.  Lines 38-40 of
data_processing.py assign the converted date column back into each input
dataframe, so the call both returns its output and leaves the inputs in a
possibly changed state; the returned RawInputs is that post-call state. -/
def process_data_call (inp : RawInputs) : RawInputs × ProcOutput :=
  let post : RawInputs :=
    ⟨inp.traffic_df.map (fun r => { r with date := to_datetime r.date }),
      inp.clicks_df.map (fun r => { r with date := to_datetime r.date }),
      inp.weather_df.map (fun r => { r with date := to_datetime r.date })⟩
  (post,
    process_data (post.traffic_df.map convertTraffic)
      (post.clicks_df.map convertClicks)
      (post.weather_df.map convertWeather))

/-- The unified dataset as handed to a report generator: the merged rows
plus, since _detect_anomalies probes column presence by name, one flag per
column it looks up.  A dataframe produced by process_data has all four
columns. -/
structure UDF where
  hasImpressions : Bool
  hasLocation : Bool
  hasDate : Bool
  hasRain : Bool
  rows : List URow
deriving DecidableEq

/-- An anomaly finding, modelled structurally: the report code renders
exactly these fields into one human-readable sentence, with the rainfall
clause present iff the rainfall component is attached. -/
structure Finding where
  location : String
  date : ℤ
  impressions_current : ℚ
  impressions_previous : ℚ
  drop_pct : ℚ
  rainfall : Option FVal
deriving DecidableEq

/-- merged_df.groupby(["date", "location"]).sum() over impressions: the
per-location daily impression totals, one entry per distinct
(date, location). -/
def dailyAgg (rows : List URow) : List (ℤ × String × ℚ) :=
  ((rows.map (fun r => (r.date, r.location))).dedup).map (fun k =>
    (k.1, k.2,
      fsum ((rows.filter (fun r => r.date = k.1 ∧ r.location = k.2)).map
        (fun r => FVal.num r.impressions))))

/-- The default drop_threshold of both _detect_anomalies routines. -/
def default_drop_threshold : ℚ := 3 / 10

/-- The inner loop of _detect_anomalies over one location's date-ordered
daily series: for each consecutive pair, skip it when the previous day's
impressions are ≤ 0, otherwise compute the relative change and emit a
finding when it is ≤ -drop_threshold, attaching the mean rainfall over the
rows matching the current (date, location) when the rainfall_mm column
exists and the matching selection is non-empty. -/
def scanPairs (loc : String) (hasRain : Bool) (rows : List URow) (thr : ℚ) :
    List (ℤ × ℚ) → List Finding
  | [] => []
  | [_] => []
  | p :: q :: rest =>
      let tail := scanPairs loc hasRain rows thr (q :: rest)
      if p.2 ≤ 0 then tail
      else
        let change := (q.2 - p.2) / p.2
        if change ≤ -thr then
          { location := loc
            date := q.1
            impressions_current := q.2
            impressions_previous := p.2
            drop_pct := -change * 100
            rainfall :=
              if hasRain then
                let mrows := rows.filter (fun r => r.date = q.1 ∧ r.location = loc)
                if mrows.isEmpty then none
                else some (fmean (mrows.map (fun r => r.rainfall_mm)))
              else none } :: tail
        else tail

/-- _detect_anomalies from src/report_generator/pdf_report.py: return no
findings when the impressions, location or date column is absent;
otherwise aggregate daily impressions per (date, location), walk each
location's series in ascending date order and scan consecutive pairs. -/
def detectAnomaliesPdf (df : UDF) (drop_threshold : ℚ) : List Finding :=
  if df.hasImpressions ∧ df.hasLocation ∧ df.hasDate then
    let daily := dailyAgg df.rows
    let locs := List.insertionSort (fun a b => a ≤ b) ((daily.map (fun t => t.2.1)).dedup)
    locs.flatMap (fun loc =>
      let series := List.insertionSort (fun a b => a.1 ≤ b.1)
        ((daily.filter (fun t => t.2.1 = loc)).map (fun t => (t.1, t.2.2)))
      scanPairs loc df.hasRain df.rows drop_threshold series)
  else []

/-- _detect_anomalies from src/report_generator/ppt_report.py: the same
routine duplicated in the PPT generator ("Same anomaly logic as PDF"). -/
def detectAnomaliesPpt (df : UDF) (drop_threshold : ℚ) : List Finding :=
  if df.hasImpressions ∧ df.hasLocation ∧ df.hasDate then
    let daily := dailyAgg df.rows
    let locs := List.insertionSort (fun a b => a ≤ b) ((daily.map (fun t => t.2.1)).dedup)
    locs.flatMap (fun loc =>
      let series := List.insertionSort (fun a b => a.1 ≤ b.1)
        ((daily.filter (fun t => t.2.1 = loc)).map (fun t => (t.1, t.2.2)))
      scanPairs loc df.hasRain df.rows drop_threshold series)
  else []

/-- The unified dataset as a UDF, as passed by generate_pdf_report and
generate_ppt_report: all four probed columns exist on a process_data
output. -/
def toUDF (out : ProcOutput) : UDF :=
  ⟨true, true, true, true, out.merged⟩

/-- Required columns of traffic.csv (line 24 of data_processing.py). -/
def required_traffic_cols : List String :=
  ["date", "location", "campaign_id", "impressions"]

/-- Required columns of clicks.csv (line 25). -/
def required_clicks_cols : List String :=
  ["date", "campaign_id", "clicks", "conversions", "spend"]

/-- Required columns of weather.csv (line 26). -/
def required_weather_cols : List String :=
  ["date", "location", "temperature_c", "rainfall_mm"]

/-- The required columns absent from a dataset's column list. -/
def missingFrom (required present : List String) : List String :=
  required.filter (fun col => ¬ col ∈ present)

/-- Lines 28-35 of data_processing.py: one warning per dataset whose
required columns are not all present, carrying the missing column names;
a warning is logged and nothing else happens. -/
def columnWarnings (tCols cCols wCols : List String) : List (String × List String) :=
  (if missingFrom required_traffic_cols tCols = [] then []
   else [("traffic.csv", missingFrom required_traffic_cols tCols)]) ++
  (if missingFrom required_clicks_cols cCols = [] then []
   else [("clicks.csv", missingFrom required_clicks_cols cCols)]) ++
  (if missingFrom required_weather_cols wCols = [] then []
   else [("weather.csv", missingFrom required_weather_cols wCols)])

/-- pandas groupby/agg raises KeyError when a named grouping or
aggregation column is absent from the frame; modelled as an Except error
naming the missing columns. -/
def groupbyNeeds (present needed : List String) : Except String Unit :=
  match needed.filter (fun col => ¬ col ∈ present) with
  | [] => Except.ok ()
  | ms => Except.error ("KeyError: " ++ String.intercalate ", " ms)

/-- The control flow of process_data as a function of which columns each
input dataset has: first the warning loop (lines 28-35), then the three
groupby/agg calls (lines 43-58) in source order, each of which raises
KeyError if a column it names is absent.  The later merges and ratio
columns only use columns produced by these aggregations, so the first
possible failure points are the three aggregations. -/
def process_data_colflow (tCols cCols wCols : List String) :
    List (String × List String) × Except String Unit :=
  (columnWarnings tCols cCols wCols,
    do
      groupbyNeeds tCols ["date", "campaign_id", "location", "impressions"]
      groupbyNeeds cCols ["date", "campaign_id", "clicks", "conversions", "spend"]
      groupbyNeeds wCols ["date", "location", "temperature_c", "rainfall_mm"]
      Except.ok ())

/-- Key of an aggregated traffic row. -/
def trafficAggKey (r : TrafficAgg) : ℤ × String × String :=
  (r.date, r.campaign_id, r.location)

/-- Key of an aggregated clicks row. -/
def clicksAggKey (r : ClicksAgg) : ℤ × String :=
  (r.date, r.campaign_id)

/-- Key of an aggregated weather row. -/
def weatherAggKey (r : WeatherAgg) : ℤ × String :=
  (r.date, r.location)

/-- Key of a traffic-clicks merged row. -/
def merged1Key (r : Merged1) : ℤ × String × String :=
  (r.date, r.campaign_id, r.location)

/-- Key of a fully merged row. -/
def merged2Key (r : Merged2) : ℤ × String × String :=
  (r.date, r.campaign_id, r.location)

lemma countP_eq_of_nodup {κ : Type} [DecidableEq κ] {l : List κ} (h : l.Nodup) (k : κ) :
    l.countP (fun x => x = k) = if k ∈ l then 1 else 0 := by
  induction l with
  | nil => simp
  | cons a tl ih =>
      rw [List.countP_cons]
      rcases List.nodup_cons.mp h with ⟨ha, htl⟩
      by_cases hak : a = k
      · subst hak
        have : tl.countP (fun x => x = a) = 0 :=
          List.countP_eq_zero.mpr (fun b hb => by simp; exact fun e => ha (e ▸ hb))
        simp [this]
      · have hka : ¬ k = a := fun e => hak e.symm
        simp [ih htl, hak, List.mem_cons, hka]

lemma countP_key_dedup_map {κ β : Type} [DecidableEq κ] (keys : List κ) (mk : κ → β)
    (kb : β → κ) (hmk : ∀ k, kb (mk k) = k) (k : κ) :
    ((keys.dedup).map mk).countP (fun b => kb b = k) = if k ∈ keys then 1 else 0 := by
  rw [List.countP_map]
  have : ((fun b => decide (kb b = k)) ∘ mk) = fun x => decide (x = k) := by
    funext x; simp [hmk]
  rw [this, countP_eq_of_nodup (List.nodup_dedup keys) k]
  by_cases hk : k ∈ keys <;> simp [hk, List.mem_dedup]

lemma countP_flatMap_singleton {α β κ : Type} [DecidableEq κ] (l : List α)
    (expand : α → List β) (ka : α → κ) (kb : β → κ) (k : κ)
    (h : ∀ a ∈ l, ∃ b, expand a = [b] ∧ kb b = ka a) :
    (l.flatMap expand).countP (fun b => kb b = k) = l.countP (fun a => ka a = k) := by
  induction l with
  | nil => simp
  | cons a tl ih =>
      rw [List.flatMap_cons, List.countP_append, List.countP_cons]
      rcases h a (List.mem_cons_self a tl) with ⟨b, hb, hkey⟩
      rw [hb, ih (fun x hx => h x (List.mem_cons_of_mem a hx))]
      have hsing : List.countP (fun b => decide (kb b = k)) [b] =
          if ka a = k then 1 else 0 := by
        simp [List.countP_cons, hkey]
      rw [hsing]
      by_cases hka : ka a = k <;> simp [hka, Nat.add_comm]

lemma trafficAggKey_mk (rows : List TrafficRowC) (k : ℤ × String × String) :
    trafficAggKey (mkTrafficAgg rows k) = k := by
  simp [trafficAggKey, mkTrafficAgg]

lemma clicksAggKey_mk (rows : List ClicksRowC) (k : ℤ × String) :
    clicksAggKey (mkClicksAgg rows k) = k := by
  simp [clicksAggKey, mkClicksAgg]

lemma weatherAggKey_mk (rows : List WeatherRowC) (k : ℤ × String) :
    weatherAggKey (mkWeatherAgg rows k) = k := by
  simp [weatherAggKey, mkWeatherAgg]

lemma countP_traffic_agg (t : List TrafficRowC) (k : ℤ × String × String) :
    (traffic_agg t).countP (fun r => trafficAggKey r = k) =
      if k ∈ t.map trafficKey then 1 else 0 := by
  rw [traffic_agg, countP_key_dedup_map (t.map trafficKey) (mkTrafficAgg t) trafficAggKey
    (trafficAggKey_mk t) k]
  by_cases hk : k ∈ t.map trafficKey <;> simp [hk]

lemma countP_clicks_agg (c : List ClicksRowC) (k : ℤ × String) :
    (clicks_agg c).countP (fun r => clicksAggKey r = k) =
      if k ∈ c.map clicksKey then 1 else 0 := by
  rw [clicks_agg, countP_key_dedup_map (c.map clicksKey) (mkClicksAgg c) clicksAggKey
    (clicksAggKey_mk c) k]
  by_cases hk : k ∈ c.map clicksKey <;> simp [hk]

lemma countP_weather_agg (w : List WeatherRowC) (k : ℤ × String) :
    (weather_agg w).countP (fun r => weatherAggKey r = k) =
      if k ∈ w.map weatherKey then 1 else 0 := by
  rw [weather_agg, countP_key_dedup_map (w.map weatherKey) (mkWeatherAgg w) weatherAggKey
    (weatherAggKey_mk w) k]
  by_cases hk : k ∈ w.map weatherKey <;> simp [hk]

lemma clicks_filter_len (c : List ClicksRowC) (d : ℤ) (g : String) :
    ((clicks_agg c).filter (fun cr => cr.date = d ∧ cr.campaign_id = g)).length ≤ 1 := by
  have hcong : (clicks_agg c).countP (fun cr => cr.date = d ∧ cr.campaign_id = g) =
      (clicks_agg c).countP (fun cr => clicksAggKey cr = (d, g)) := by
    apply List.countP_congr
    intro cr _
    simp [clicksAggKey, Prod.ext_iff]
  rw [← List.countP_eq_length_filter, hcong, countP_clicks_agg]
  split <;> omega

lemma weather_filter_len (w : List WeatherRowC) (d : ℤ) (loc : String) :
    ((weather_agg w).filter (fun wr => wr.date = d ∧ wr.location = loc)).length ≤ 1 := by
  have hcong : (weather_agg w).countP (fun wr => wr.date = d ∧ wr.location = loc) =
      (weather_agg w).countP (fun wr => weatherAggKey wr = (d, loc)) := by
    apply List.countP_congr
    intro wr _
    simp [weatherAggKey, Prod.ext_iff]
  rw [← List.countP_eq_length_filter, hcong, countP_weather_agg]
  split <;> omega

lemma expandClicks_singleton (c : List ClicksRowC) (tr : TrafficAgg) :
    ∃ b : Merged1, expandClicks (clicks_agg c) tr = [b] ∧ merged1Key b = trafficAggKey tr := by
  unfold expandClicks
  rcases hms : (clicks_agg c).filter
      (fun cr => cr.date = tr.date ∧ cr.campaign_id = tr.campaign_id) with _ | ⟨cr, rest⟩
  · rw [hms]
    exact ⟨_, rfl, rfl⟩
  · have hlen := clicks_filter_len c tr.date tr.campaign_id
    rw [hms] at hlen
    have hrest : rest = [] := by
      cases rest with
      | nil => rfl
      | cons x xs => simp at hlen
    subst hrest
    rw [hms]
    exact ⟨_, rfl, rfl⟩

lemma expandWeather_singleton (w : List WeatherRowC) (mr : Merged1) :
    ∃ b : Merged2, expandWeather (weather_agg w) mr = [b] ∧ merged2Key b = merged1Key mr := by
  unfold expandWeather
  rcases hms : (weather_agg w).filter
      (fun wr => wr.date = mr.date ∧ wr.location = mr.location) with _ | ⟨wr, rest⟩
  · rw [hms]
    exact ⟨_, rfl, rfl⟩
  · have hlen := weather_filter_len w mr.date mr.location
    rw [hms] at hlen
    have hrest : rest = [] := by
      cases rest with
      | nil => rfl
      | cons x xs => simp at hlen
    subst hrest
    rw [hms]
    exact ⟨_, rfl, rfl⟩

lemma countP_merge1 (t : List TrafficAgg) (c : List ClicksRowC) (k : ℤ × String × String) :
    (merge1 t (clicks_agg c)).countP (fun r => merged1Key r = k) =
      t.countP (fun r => trafficAggKey r = k) := by
  rw [merge1]
  exact countP_flatMap_singleton t (expandClicks (clicks_agg c)) trafficAggKey merged1Key k
    (fun tr _ => expandClicks_singleton c tr)

lemma countP_merge2 (m : List Merged1) (w : List WeatherRowC) (k : ℤ × String × String) :
    (merge2 m (weather_agg w)).countP (fun r => merged2Key r = k) =
      m.countP (fun r => merged1Key r = k) := by
  rw [merge2]
  exact countP_flatMap_singleton m (expandWeather (weather_agg w)) merged1Key merged2Key k
    (fun mr _ => expandWeather_singleton w mr)

lemma key_addRatios (m : Merged2) : URow.key (addRatios m) = merged2Key m := rfl

lemma countP_process_merged (t : List TrafficRowC) (c : List ClicksRowC)
    (w : List WeatherRowC) (k : ℤ × String × String) :
    (process_data t c w).merged.countP (fun r => URow.key r = k) =
      if k ∈ t.map trafficKey then 1 else 0 := by
  show ((merge2 (merge1 (traffic_agg t) (clicks_agg c)) (weather_agg w)).map
      addRatios).countP (fun r => URow.key r = k) = _
  rw [List.countP_map]
  have hc : ((fun r => decide (URow.key r = k)) ∘ addRatios) =
      fun m => decide (merged2Key m = k) := by
    funext m
    rw [Function.comp_apply, key_addRatios]
  rw [hc, countP_merge2, countP_merge1, countP_traffic_agg]

lemma mem_expandClicks {cagg : List ClicksAgg} {tr : TrafficAgg} {m : Merged1}
    (h : m ∈ expandClicks cagg tr) :
    m.date = tr.date ∧ m.campaign_id = tr.campaign_id ∧ m.location = tr.location ∧
      m.impressions = tr.impressions ∧
      ((m.clicks = FVal.nan ∧ m.conversions = FVal.nan ∧ m.spend = FVal.nan ∧
        cagg.filter (fun cr => cr.date = tr.date ∧ cr.campaign_id = tr.campaign_id) = []) ∨
       (∃ cr ∈ cagg, cr.date = tr.date ∧ cr.campaign_id = tr.campaign_id ∧
        m.clicks = FVal.num cr.clicks ∧ m.conversions = FVal.num cr.conversions ∧
        m.spend = FVal.num cr.spend)) := by
  unfold expandClicks at h
  by_cases he : (cagg.filter
      (fun cr => cr.date = tr.date ∧ cr.campaign_id = tr.campaign_id)).isEmpty
  · rw [if_pos he] at h
    rcases List.mem_singleton.mp h with rfl
    exact ⟨rfl, rfl, rfl, rfl, Or.inl ⟨rfl, rfl, rfl, List.isEmpty_iff.mp he⟩⟩
  · rw [if_neg he] at h
    rcases List.mem_map.mp h with ⟨cr, hcr, rfl⟩
    rcases List.mem_filter.mp hcr with ⟨hcin, hpred⟩
    have hp := of_decide_eq_true hpred
    exact ⟨rfl, rfl, rfl, rfl, Or.inr ⟨cr, hcin, hp.1, hp.2, rfl, rfl, rfl⟩⟩

lemma mem_expandWeather {wagg : List WeatherAgg} {mr : Merged1} {m : Merged2}
    (h : m ∈ expandWeather wagg mr) :
    m.date = mr.date ∧ m.campaign_id = mr.campaign_id ∧ m.location = mr.location ∧
      m.impressions = mr.impressions ∧ m.clicks = mr.clicks ∧
      m.conversions = mr.conversions ∧ m.spend = mr.spend ∧
      ((m.temperature_c = FVal.nan ∧ m.rainfall_mm = FVal.nan ∧
        wagg.filter (fun wr => wr.date = mr.date ∧ wr.location = mr.location) = []) ∨
       (∃ wr ∈ wagg, wr.date = mr.date ∧ wr.location = mr.location ∧
        m.temperature_c = wr.temperature_c ∧ m.rainfall_mm = FVal.num wr.rainfall_mm)) := by
  unfold expandWeather at h
  by_cases he : (wagg.filter
      (fun wr => wr.date = mr.date ∧ wr.location = mr.location)).isEmpty
  · rw [if_pos he] at h
    rcases List.mem_singleton.mp h with rfl
    exact ⟨rfl, rfl, rfl, rfl, rfl, rfl, rfl,
      Or.inl ⟨rfl, rfl, List.isEmpty_iff.mp he⟩⟩
  · rw [if_neg he] at h
    rcases List.mem_map.mp h with ⟨wr, hwr, rfl⟩
    rcases List.mem_filter.mp hwr with ⟨hwin, hpred⟩
    have hp := of_decide_eq_true hpred
    exact ⟨rfl, rfl, rfl, rfl, rfl, rfl, rfl, Or.inr ⟨wr, hwin, hp.1, hp.2, rfl, rfl⟩⟩

lemma mem_clicks_agg_input {c : List ClicksRowC} {cr : ClicksAgg} (h : cr ∈ clicks_agg c) :
    ∃ ci ∈ c, ci.date = cr.date ∧ ci.campaign_id = cr.campaign_id := by
  unfold clicks_agg at h
  rcases List.mem_map.mp h with ⟨k, hk, rfl⟩
  rcases List.mem_map.mp (List.mem_dedup.mp hk) with ⟨ci, hci, hkey⟩
  refine ⟨ci, hci, ?_, ?_⟩ <;>
    simp [mkClicksAgg, ← hkey, clicksKey]

lemma mem_weather_agg_input {w : List WeatherRowC} {wr : WeatherAgg} (h : wr ∈ weather_agg w) :
    ∃ wi ∈ w, wi.date = wr.date ∧ wi.location = wr.location := by
  unfold weather_agg at h
  rcases List.mem_map.mp h with ⟨k, hk, rfl⟩
  rcases List.mem_map.mp (List.mem_dedup.mp hk) with ⟨wi, hwi, hkey⟩
  refine ⟨wi, hwi, ?_, ?_⟩ <;>
    simp [mkWeatherAgg, ← hkey, weatherKey]

/-- C1: every distinct (date, campaign_id, location) triple present in the
traffic input yields exactly one unified record with that key (counted over
the merged dataset returned by process_data), regardless of whether any
matching click or weather record exists; a record with no matching clicks
input row has NaN (null) click fields, one with no matching weather input
row has NaN weather fields, and no traffic key is ever dropped. -/
theorem C1_join_completeness (t : List TrafficRowC) (c : List ClicksRowC)
    (w : List WeatherRowC) :
    (∀ k : ℤ × String × String, k ∈ t.map trafficKey →
        (process_data t c w).merged.countP (fun r => URow.key r = k) = 1) ∧
    (∀ r ∈ (process_data t c w).merged,
        (∀ cr ∈ c, ¬(cr.date = r.date ∧ cr.campaign_id = r.campaign_id)) →
          r.clicks = FVal.nan ∧ r.conversions = FVal.nan ∧ r.spend = FVal.nan) ∧
    (∀ r ∈ (process_data t c w).merged,
        (∀ wr ∈ w, ¬(wr.date = r.date ∧ wr.location = r.location)) →
          r.temperature_c = FVal.nan ∧ r.rainfall_mm = FVal.nan) := by
  refine ⟨?_, ?_, ?_⟩
  · intro k hk
    rw [countP_process_merged, if_pos hk]
  · intro r hr hnone
    rcases List.mem_map.mp hr with ⟨m, hm, rfl⟩
    rcases List.mem_flatMap.mp hm with ⟨mr, hmr, hmw⟩
    rcases mem_expandWeather hmw with ⟨hd, hg, hl, hi, hcl, hcv, hsp, _⟩
    rcases List.mem_flatMap.mp hmr with ⟨tr, htr, hmc⟩
    rcases mem_expandClicks hmc with ⟨hd1, hg1, hl1, hi1, hcase⟩
    rcases hcase with ⟨hna, hnb, hnc, _⟩ | ⟨cr, hcr, hcd, hcg, _, _, _⟩
    · refine ⟨?_, ?_, ?_⟩ <;>
        simp [addRatios, hcl, hcv, hsp, hna, hnb, hnc]
    · exfalso
      rcases mem_clicks_agg_input hcr with ⟨ci, hci, hcid, hcig⟩
      refine hnone ci hci ⟨?_, ?_⟩
      · show ci.date = (addRatios m).date
        rw [hcid, hcd, ← hd1, ← hd]
        exact rfl
      · show ci.campaign_id = (addRatios m).campaign_id
        rw [hcig, hcg, ← hg1, ← hg]
        exact rfl
  · intro r hr hnone
    rcases List.mem_map.mp hr with ⟨m, hm, rfl⟩
    rcases List.mem_flatMap.mp hm with ⟨mr, hmr, hmw⟩
    rcases mem_expandWeather hmw with ⟨hd, hg, hl, hi, hcl, hcv, hsp, hcase⟩
    rcases hcase with ⟨hta, hra, _⟩ | ⟨wr, hwr, hwd, hwl, _, _⟩
    · exact ⟨hta, hra⟩
    · exfalso
      rcases mem_weather_agg_input hwr with ⟨wi, hwi, hwid, hwil⟩
      refine hnone wi hwi ⟨?_, ?_⟩
      · show wi.date = (addRatios m).date
        rw [hwid, hwd]
        exact hd.symm
      · show wi.location = (addRatios m).location
        rw [hwil, hwl]
        exact hl.symm

lemma replaceInf_div_num (a q : ℚ) :
    replaceInf (FVal.div (FVal.num a) (FVal.num q)) =
      if q = 0 then FVal.nan else FVal.num (a / q) := by
  by_cases hq : q = 0
  · by_cases ha : a = 0
    · simp [FVal.div, replaceInf, hq, ha]
    · by_cases hpos : 0 < a <;> simp [FVal.div, replaceInf, hq, ha, hpos]
  · simp [FVal.div, replaceInf, hq]

lemma div_nan_left (v : FVal) : FVal.div FVal.nan v = FVal.nan := by
  cases v <;> rfl

lemma replaceInf_ne_inf (v : FVal) :
    replaceInf v ≠ FVal.pinf ∧ replaceInf v ≠ FVal.ninf := by
  cases v <;> simp [replaceInf]

lemma merged_row_fields {t : List TrafficRowC} {c : List ClicksRowC} {w : List WeatherRowC}
    {r : URow} (hr : r ∈ (process_data t c w).merged) :
    r.ctr = replaceInf (FVal.div r.clicks (FVal.num r.impressions)) ∧
    r.cpc = replaceInf (FVal.div r.spend r.clicks) ∧
    r.conversion_rate = replaceInf (FVal.div r.conversions r.clicks) ∧
    r.cpa = replaceInf (FVal.div r.spend r.conversions) ∧
    ((∃ a b d : ℚ, r.clicks = FVal.num a ∧ r.conversions = FVal.num b ∧ r.spend = FVal.num d) ∨
      (r.clicks = FVal.nan ∧ r.conversions = FVal.nan ∧ r.spend = FVal.nan)) := by
  rcases List.mem_map.mp hr with ⟨m, hm, rfl⟩
  refine ⟨rfl, rfl, rfl, rfl, ?_⟩
  rcases List.mem_flatMap.mp hm with ⟨mr, hmr, hmw⟩
  rcases mem_expandWeather hmw with ⟨_, _, _, _, hcl, hcv, hsp, _⟩
  rcases List.mem_flatMap.mp hmr with ⟨tr, _, hmc⟩
  rcases mem_expandClicks hmc with ⟨_, _, _, _, hcase⟩
  rcases hcase with ⟨hna, hnb, hnc, _⟩ | ⟨cr, _, _, _, ha, hb, hd⟩
  · right
    show m.clicks = FVal.nan ∧ m.conversions = FVal.nan ∧ m.spend = FVal.nan
    rw [hcl, hcv, hsp]
    exact ⟨hna, hnb, hnc⟩
  · left
    refine ⟨cr.clicks, cr.conversions, cr.spend, ?_, ?_, ?_⟩
    · show m.clicks = _
      rw [hcl]; exact ha
    · show m.conversions = _
      rw [hcv]; exact hb
    · show m.spend = _
      rw [hsp]; exact hd

/-- C2: for every record of the unified dataset, each derived ratio is NaN
(pandas null) exactly when its denominator is zero or null or its other
operand is null, and no ratio is ever an infinity.  Impressions are a
rational aggregate and can never be null, so the "impressions is null"
disjunct of the claim reduces to impressions = 0. -/
theorem C2_ratio_null_policy (t : List TrafficRowC) (c : List ClicksRowC)
    (w : List WeatherRowC) (r : URow) (hr : r ∈ (process_data t c w).merged) :
    (r.ctr = FVal.nan ↔ r.impressions = 0 ∨ r.clicks = FVal.nan) ∧
    (r.cpc = FVal.nan ↔ r.clicks = FVal.num 0 ∨ r.clicks = FVal.nan ∨ r.spend = FVal.nan) ∧
    (r.conversion_rate = FVal.nan ↔
      r.clicks = FVal.num 0 ∨ r.clicks = FVal.nan ∨ r.conversions = FVal.nan) ∧
    (r.cpa = FVal.nan ↔
      r.conversions = FVal.num 0 ∨ r.conversions = FVal.nan ∨ r.spend = FVal.nan) ∧
    (r.ctr ≠ FVal.pinf ∧ r.ctr ≠ FVal.ninf) ∧ (r.cpc ≠ FVal.pinf ∧ r.cpc ≠ FVal.ninf) ∧
    (r.conversion_rate ≠ FVal.pinf ∧ r.conversion_rate ≠ FVal.ninf) ∧
    (r.cpa ≠ FVal.pinf ∧ r.cpa ≠ FVal.ninf) := by
  rcases merged_row_fields hr with ⟨hctr, hcpc, hcr, hcpa, hinv⟩
  refine ⟨?_, ?_, ?_, ?_, ?_, ?_, ?_, ?_⟩
  · rcases hinv with ⟨a, b, d, hcl, hcv, hsp⟩ | ⟨hcl, hcv, hsp⟩
    · rw [hctr, hcl, replaceInf_div_num]
      by_cases hi : r.impressions = 0 <;> simp [hi, hcl]
    · rw [hctr, hcl, div_nan_left]
      simp [replaceInf, hcl]
  · rcases hinv with ⟨a, b, d, hcl, hcv, hsp⟩ | ⟨hcl, hcv, hsp⟩
    · rw [hcpc, hcl, hsp, replaceInf_div_num]
      by_cases ha : a = 0 <;> simp [ha, hcl, hsp]
    · rw [hcpc, hcl, hsp, div_nan_left]
      simp [replaceInf, hcl]
  · rcases hinv with ⟨a, b, d, hcl, hcv, hsp⟩ | ⟨hcl, hcv, hsp⟩
    · rw [hcr, hcl, hcv, replaceInf_div_num]
      by_cases ha : a = 0 <;> simp [ha, hcl, hcv]
    · rw [hcr, hcl, hcv, div_nan_left]
      simp [replaceInf, hcl]
  · rcases hinv with ⟨a, b, d, hcl, hcv, hsp⟩ | ⟨hcl, hcv, hsp⟩
    · rw [hcpa, hcv, hsp, replaceInf_div_num]
      by_cases hb : b = 0 <;> simp [hb, hcv, hsp]
    · rw [hcpa, hcv, hsp, div_nan_left]
      simp [replaceInf, hcv]
  · rw [hctr]; exact replaceInf_ne_inf _
  · rw [hcpc]; exact replaceInf_ne_inf _
  · rw [hcr]; exact replaceInf_ne_inf _
  · rw [hcpa]; exact replaceInf_ne_inf _

lemma campaign_row_shape {rows : List URow} {row : CampaignRow}
    (h : row ∈ campaign_summary rows) :
    row.ctr = FVal.div (FVal.num row.clicks) (FVal.num row.impressions) ∧
    row.cpc = FVal.div (FVal.num row.spend) (FVal.num row.clicks) ∧
    row.cvr = FVal.div (FVal.num row.conversions) (FVal.num row.clicks) ∧
    row.cpa = FVal.div (FVal.num row.spend) (FVal.num row.conversions) := by
  rcases List.mem_map.mp h with ⟨cid, _, rfl⟩
  exact ⟨rfl, rfl, rfl, rfl⟩

lemma div_num_zero_den (a : ℚ) :
    FVal.div (FVal.num a) (FVal.num 0) =
      if a = 0 then FVal.nan else if 0 < a then FVal.pinf else FVal.ninf := by
  by_cases ha : a = 0
  · simp [FVal.div, ha]
  · by_cases hpos : 0 < a <;> simp [FVal.div, ha, hpos]

/-- C3 (amended): in the Campaign Summary a zero summed denominator yields
NaN only when the summed numerator is also zero; a positive (negative)
numerator over a zero denominator yields +∞ (−∞), because campaign-level
ratios are not normalized to null. -/
theorem C3_campaign_ratio_amended (t : List TrafficRowC) (c : List ClicksRowC)
    (w : List WeatherRowC) (row : CampaignRow)
    (hrow : row ∈ (process_data t c w).campaigns) :
    (row.impressions = 0 →
      row.ctr = if row.clicks = 0 then FVal.nan
        else if 0 < row.clicks then FVal.pinf else FVal.ninf) ∧
    (row.clicks = 0 →
      row.cpc = if row.spend = 0 then FVal.nan
        else if 0 < row.spend then FVal.pinf else FVal.ninf) ∧
    (row.clicks = 0 →
      row.cvr = if row.conversions = 0 then FVal.nan
        else if 0 < row.conversions then FVal.pinf else FVal.ninf) ∧
    (row.conversions = 0 →
      row.cpa = if row.spend = 0 then FVal.nan
        else if 0 < row.spend then FVal.pinf else FVal.ninf) := by
  rcases campaign_row_shape hrow with ⟨hctr, hcpc, hcvr, hcpa⟩
  refine ⟨?_, ?_, ?_, ?_⟩
  · intro h0
    rw [hctr, h0, div_num_zero_den]
  · intro h0
    rw [hcpc, h0, div_num_zero_den]
  · intro h0
    rw [hcvr, h0, div_num_zero_den]
  · intro h0
    rw [hcpa, h0, div_num_zero_den]

/-- C3: counterexample.  For a single campaign whose clicks sum to 0 while
its spend sums to 5, the Campaign Summary cpc is +∞, not null: lines
109-112 of data_processing.py do not pass the campaign-level ratios through
the inf-to-NaN replacement, so the null-on-zero-denominator policy fails. -/
theorem C3_campaign_ratio_counterexample :
    ((process_data [⟨1, "L", "c1", FVal.num 100⟩]
        [⟨1, "c1", FVal.num 0, FVal.num 0, FVal.num 5⟩] []).campaigns.map
      (fun row => row.cpc)) = [FVal.pinf] := by
  norm_num [process_data, traffic_agg, clicks_agg, weather_agg, mkTrafficAgg, mkClicksAgg,
    mkWeatherAgg, merge1, merge2, expandClicks, expandWeather, addRatios, campaign_summary,
    mkCampaignRow, fsum, fmean, trafficKey, clicksKey, weatherKey, FVal.div, replaceInf,
    List.dedup, List.pwFilter, mkOverall]

lemma fsum_eq_orZero_sum (l : List FVal) : fsum l = (l.map FVal.orZero).sum := by
  induction l with
  | nil => rfl
  | cons v tl ih => cases v <;> simp [fsum, FVal.orZero, ih]

lemma mkOverall_totals (rows : List URow) :
    (mkOverall rows).total_impressions = fsum (rows.map (fun r => FVal.num r.impressions)) ∧
    (mkOverall rows).total_clicks = fsum (rows.map (fun r => r.clicks)) ∧
    (mkOverall rows).total_conversions = fsum (rows.map (fun r => r.conversions)) ∧
    (mkOverall rows).total_spend = fsum (rows.map (fun r => r.spend)) :=
  ⟨rfl, rfl, rfl, rfl⟩

lemma mkOverall_ratios (rows : List URow) :
    (mkOverall rows).overall_ctr =
      (if (mkOverall rows).total_impressions = 0 then 0
       else (mkOverall rows).total_clicks / (mkOverall rows).total_impressions) ∧
    (mkOverall rows).overall_cpc =
      (if (mkOverall rows).total_clicks = 0 then 0
       else (mkOverall rows).total_spend / (mkOverall rows).total_clicks) ∧
    (mkOverall rows).overall_cvr =
      (if (mkOverall rows).total_clicks = 0 then 0
       else (mkOverall rows).total_conversions / (mkOverall rows).total_clicks) ∧
    (mkOverall rows).overall_cpa =
      (if (mkOverall rows).total_conversions = 0 then 0
       else (mkOverall rows).total_spend / (mkOverall rows).total_conversions) :=
  ⟨rfl, rfl, rfl, rfl⟩

/-- C5 (amended): the Overall Summary totals are skipna sums over the
merged dataset (nulls counted as 0), each overall ratio equals the
quotient of the corresponding totals and equals 0.0 whenever its
denominator total is 0; in particular when total_clicks = 0 the overall
ctr is 0.0.  A per-row record with clicks = 0 has ctr = null only when its
impressions are also 0. -/
theorem C5_overall_zero_default_amended (t : List TrafficRowC) (c : List ClicksRowC)
    (w : List WeatherRowC) :
    ((process_data t c w).overall.total_clicks =
        (((process_data t c w).merged.map (fun r => r.clicks)).map FVal.orZero).sum) ∧
    ((process_data t c w).overall.total_conversions =
        (((process_data t c w).merged.map (fun r => r.conversions)).map FVal.orZero).sum) ∧
    ((process_data t c w).overall.total_spend =
        (((process_data t c w).merged.map (fun r => r.spend)).map FVal.orZero).sum) ∧
    ((process_data t c w).overall.total_impressions ≠ 0 →
      (process_data t c w).overall.overall_ctr =
        (process_data t c w).overall.total_clicks /
          (process_data t c w).overall.total_impressions) ∧
    ((process_data t c w).overall.total_impressions = 0 →
      (process_data t c w).overall.overall_ctr = 0) ∧
    ((process_data t c w).overall.total_clicks = 0 →
      (process_data t c w).overall.overall_ctr = 0) ∧
    ((process_data t c w).overall.total_clicks ≠ 0 →
      (process_data t c w).overall.overall_cpc =
        (process_data t c w).overall.total_spend /
          (process_data t c w).overall.total_clicks) ∧
    ((process_data t c w).overall.total_clicks = 0 →
      (process_data t c w).overall.overall_cpc = 0) ∧
    ((process_data t c w).overall.total_clicks ≠ 0 →
      (process_data t c w).overall.overall_cvr =
        (process_data t c w).overall.total_conversions /
          (process_data t c w).overall.total_clicks) ∧
    ((process_data t c w).overall.total_clicks = 0 →
      (process_data t c w).overall.overall_cvr = 0) ∧
    ((process_data t c w).overall.total_conversions ≠ 0 →
      (process_data t c w).overall.overall_cpa =
        (process_data t c w).overall.total_spend /
          (process_data t c w).overall.total_conversions) ∧
    ((process_data t c w).overall.total_conversions = 0 →
      (process_data t c w).overall.overall_cpa = 0) ∧
    (∀ r ∈ (process_data t c w).merged,
      r.clicks = FVal.num 0 → r.impressions = 0 → r.ctr = FVal.nan) := by
  have hrat := mkOverall_ratios (process_data t c w).merged
  have hctr : (process_data t c w).overall.overall_ctr =
      (if (process_data t c w).overall.total_impressions = 0 then 0
       else (process_data t c w).overall.total_clicks /
         (process_data t c w).overall.total_impressions) := hrat.1
  have hcpc : (process_data t c w).overall.overall_cpc =
      (if (process_data t c w).overall.total_clicks = 0 then 0
       else (process_data t c w).overall.total_spend /
         (process_data t c w).overall.total_clicks) := hrat.2.1
  have hcvr : (process_data t c w).overall.overall_cvr =
      (if (process_data t c w).overall.total_clicks = 0 then 0
       else (process_data t c w).overall.total_conversions /
         (process_data t c w).overall.total_clicks) := hrat.2.2.1
  have hcpa : (process_data t c w).overall.overall_cpa =
      (if (process_data t c w).overall.total_conversions = 0 then 0
       else (process_data t c w).overall.total_spend /
         (process_data t c w).overall.total_conversions) := hrat.2.2.2
  refine ⟨fsum_eq_orZero_sum _, fsum_eq_orZero_sum _, fsum_eq_orZero_sum _,
    ?_, ?_, ?_, ?_, ?_, ?_, ?_, ?_, ?_, ?_⟩
  · intro hne
    rw [hctr, if_neg hne]
  · intro h0
    rw [hctr, if_pos h0]
  · intro h0
    rw [hctr]
    by_cases hi : (process_data t c w).overall.total_impressions = 0
    · rw [if_pos hi]
    · rw [if_neg hi, h0, zero_div]
  · intro hne
    rw [hcpc, if_neg hne]
  · intro h0
    rw [hcpc, if_pos h0]
  · intro hne
    rw [hcvr, if_neg hne]
  · intro h0
    rw [hcvr, if_pos h0]
  · intro hne
    rw [hcpa, if_neg hne]
  · intro h0
    rw [hcpa, if_pos h0]
  · intro r hr hcl himp
    rcases merged_row_fields hr with ⟨hctr2, _, _, _, _⟩
    rw [hctr2, hcl, himp]
    simp [FVal.div, replaceInf]

/-- C5: counterexample to the claim's per-row contrast.  A merged record
with clicks = 0 and impressions = 100 has ctr = 0.0, not null: a zero
numerator over a positive denominator divides to 0. -/
theorem C5_row_ctr_counterexample :
    ((process_data [⟨1, "L", "c1", FVal.num 100⟩]
        [⟨1, "c1", FVal.num 0, FVal.num 0, FVal.num 0⟩] []).merged.map
      (fun r => (r.clicks, r.ctr))) = [(FVal.num 0, FVal.num 0)] := by
  norm_num [process_data, traffic_agg, clicks_agg, weather_agg, mkTrafficAgg, mkClicksAgg,
    mkWeatherAgg, merge1, merge2, expandClicks, expandWeather, addRatios, campaign_summary,
    mkCampaignRow, fsum, fmean, trafficKey, clicksKey, weatherKey, FVal.div, replaceInf,
    List.dedup, List.pwFilter, mkOverall]

lemma toTs_to_datetime (d : DateVal) : (to_datetime d).toTs = d.toTs := by
  cases d <;> rfl

lemma convertTraffic_mutate (r : TrafficRow) :
    convertTraffic { r with date := to_datetime r.date } = convertTraffic r := by
  simp [convertTraffic, toTs_to_datetime]

lemma convertClicks_mutate (r : ClicksRow) :
    convertClicks { r with date := to_datetime r.date } = convertClicks r := by
  simp [convertClicks, toTs_to_datetime]

lemma convertWeather_mutate (r : WeatherRow) :
    convertWeather { r with date := to_datetime r.date } = convertWeather r := by
  simp [convertWeather, toTs_to_datetime]

/-- C9 (amended): the only mutation a process_data call performs on its
inputs is the in-place datetime conversion of each date column; every
other column of the three input dataframes is unchanged, and the returned
output is a deterministic function of the original input values. -/
theorem C9_input_mutation_amended (inp : RawInputs) :
    ((process_data_call inp).1.traffic_df.map (fun r => r.date) =
        inp.traffic_df.map (fun r => to_datetime r.date)) ∧
    ((process_data_call inp).1.traffic_df.map
        (fun r => (r.location, r.campaign_id, r.impressions)) =
      inp.traffic_df.map (fun r => (r.location, r.campaign_id, r.impressions))) ∧
    ((process_data_call inp).1.clicks_df.map (fun r => r.date) =
        inp.clicks_df.map (fun r => to_datetime r.date)) ∧
    ((process_data_call inp).1.clicks_df.map
        (fun r => (r.campaign_id, r.clicks, r.conversions, r.spend)) =
      inp.clicks_df.map (fun r => (r.campaign_id, r.clicks, r.conversions, r.spend))) ∧
    ((process_data_call inp).1.weather_df.map (fun r => r.date) =
        inp.weather_df.map (fun r => to_datetime r.date)) ∧
    ((process_data_call inp).1.weather_df.map
        (fun r => (r.location, r.temperature_c, r.rainfall_mm)) =
      inp.weather_df.map (fun r => (r.location, r.temperature_c, r.rainfall_mm))) ∧
    ((process_data_call inp).2 =
      process_data (inp.traffic_df.map convertTraffic) (inp.clicks_df.map convertClicks)
        (inp.weather_df.map convertWeather)) := by
  refine ⟨?_, ?_, ?_, ?_, ?_, ?_, ?_⟩ <;>
    simp [process_data_call, List.map_map, Function.comp_def, convertTraffic_mutate,
      convertClicks_mutate, convertWeather_mutate]

/-- C9: counterexample.  After a call of process_data the caller's traffic
dataframe no longer holds its original raw date value: the date column was
converted to datetime in place by lines 38-40 of data_processing.py. -/
theorem C9_input_mutation_counterexample :
    (process_data_call ⟨[⟨DateVal.raw "2025-01-04", "Delhi", "CAMP01", FVal.num 1000⟩],
        [], []⟩).1.traffic_df.map (fun r => r.date) ≠
      [DateVal.raw "2025-01-04"] := by
  simp [process_data_call, to_datetime]

/-- C4: the control flow of process_data evaluated with the location column
absent from traffic.csv: the omission is reported for traffic.csv, as the
claim says, but the run then aborts with a KeyError at the traffic
aggregation instead of continuing to completion. -/
theorem C4_missing_column_aborts :
    process_data_colflow ["date", "campaign_id", "impressions"]
      required_clicks_cols required_weather_cols =
    ([("traffic.csv", ["location"])], Except.error "KeyError: location") := by
  rfl

lemma fmean_singleton (q : ℚ) : fmean [FVal.num q] = FVal.num q := by
  simp [fmean, List.filterMap]

lemma mem_scanPairs_rain {loc : String} {hasRain : Bool} {rows : List URow} {thr : ℚ} :
    ∀ {series : List (ℤ × ℚ)} {f : Finding},
      f ∈ scanPairs loc hasRain rows thr series →
      f.location = loc ∧
      f.rainfall = (if hasRain then
          (if (rows.filter (fun r => r.date = f.date ∧ r.location = loc)).isEmpty then none
           else some (fmean ((rows.filter (fun r => r.date = f.date ∧ r.location = loc)).map
             (fun r => r.rainfall_mm))))
        else none)
  | [], f, h => by simp [scanPairs] at h
  | [_], f, h => by simp [scanPairs] at h
  | p :: q :: rest, f, h => by
      rw [scanPairs] at h
      by_cases hp : p.2 ≤ 0
      · rw [if_pos hp] at h
        exact mem_scanPairs_rain h
      · rw [if_neg hp] at h
        by_cases hc : (q.2 - p.2) / p.2 ≤ -thr
        · rw [if_pos hc] at h
          rcases List.mem_cons.mp h with h1 | h2
          · subst h1
            exact ⟨rfl, rfl⟩
          · exact mem_scanPairs_rain h2
        · rw [if_neg hc] at h
          exact mem_scanPairs_rain h

/-- C8 (amended): a finding's rainfall component equals the skipna mean of
rainfall_mm over the unified records matching the finding's
(date, location) whenever the rainfall_mm column is present and that
selection is non-empty — which is NaN when every matching value is null —
and the component is omitted only when the column is absent or no record
matches. -/
theorem C8_rainfall_attachment_amended (df : UDF) (thr : ℚ) (f : Finding)
    (hf : f ∈ detectAnomaliesPdf df thr) :
    f.rainfall = (if df.hasRain then
        (if (df.rows.filter
            (fun r => r.date = f.date ∧ r.location = f.location)).isEmpty then none
         else some (fmean ((df.rows.filter
            (fun r => r.date = f.date ∧ r.location = f.location)).map
           (fun r => r.rainfall_mm))))
      else none) := by
  rw [detectAnomaliesPdf] at hf
  by_cases hcols : df.hasImpressions ∧ df.hasLocation ∧ df.hasDate
  · rw [if_pos hcols] at hf
    rcases List.mem_flatMap.mp hf with ⟨loc, _, hmem⟩
    rcases mem_scanPairs_rain hmem with ⟨hloc, hrain⟩
    rw [hloc, hrain]
  · rw [if_neg hcols] at hf
    simp at hf

/-- C8: counterexample.  With the rainfall_mm column present but every
matching rainfall value null, the emitted finding carries rainfall NaN
(rendered as "nanmm" in the report) instead of omitting the field, so a
finding can report a non-numeric rainfall placeholder. -/
theorem C8_rainfall_nan_counterexample :
    detectAnomaliesPdf
      ⟨true, true, true, true,
        [⟨1, "c1", "L", 100, FVal.nan, FVal.nan, FVal.nan, FVal.nan, FVal.nan,
           FVal.nan, FVal.nan, FVal.nan, FVal.nan⟩,
         ⟨2, "c1", "L", 70, FVal.nan, FVal.nan, FVal.nan, FVal.nan, FVal.nan,
           FVal.nan, FVal.nan, FVal.nan, FVal.nan⟩]⟩ default_drop_threshold =
      [⟨"L", 2, 70, 100, 30, some FVal.nan⟩] := by
  norm_num [detectAnomaliesPdf, default_drop_threshold, dailyAgg, fsum, fmean, scanPairs,
    List.insertionSort, List.orderedInsert, List.dedup, List.pwFilter]

lemma mem_scanPairs_prev_pos {loc : String} {hasRain : Bool} {rows : List URow} {thr : ℚ} :
    ∀ {series : List (ℤ × ℚ)} {f : Finding},
      f ∈ scanPairs loc hasRain rows thr series → 0 < f.impressions_previous
  | [], f, h => by simp [scanPairs] at h
  | [_], f, h => by simp [scanPairs] at h
  | p :: q :: rest, f, h => by
      rw [scanPairs] at h
      by_cases hp : p.2 ≤ 0
      · rw [if_pos hp] at h
        exact mem_scanPairs_prev_pos h
      · rw [if_neg hp] at h
        by_cases hc : (q.2 - p.2) / p.2 ≤ -thr
        · rw [if_pos hc] at h
          rcases List.mem_cons.mp h with h1 | h2
          · subst h1
            exact lt_of_not_le hp
          · exact mem_scanPairs_prev_pos h2
        · rw [if_neg hc] at h
          exact mem_scanPairs_prev_pos h

/-- C7: every finding emitted by the anomaly scan has positive
previous-day impressions, for every dataset and threshold: a consecutive
pair whose previous day's summed impressions are ≤ 0 is skipped before the
relative-change division is evaluated, so no finding arises from it and
the division never runs with a zero divisor. -/
theorem C7_anomaly_zero_guard (df : UDF) (thr : ℚ) (f : Finding)
    (hf : f ∈ detectAnomaliesPdf df thr) : 0 < f.impressions_previous := by
  rw [detectAnomaliesPdf] at hf
  by_cases hcols : df.hasImpressions ∧ df.hasLocation ∧ df.hasDate
  · rw [if_pos hcols] at hf
    rcases List.mem_flatMap.mp hf with ⟨loc, _, hmem⟩
    exact mem_scanPairs_prev_pos hmem
  · rw [if_neg hcols] at hf
    simp at hf

/-- Witness for C1 at a concrete input. -/
theorem C1_join_completeness_witness :
    (((1 : ℤ), "c1", "L") ∈ ([⟨1, "L", "c1", FVal.num 2⟩] : List TrafficRowC).map trafficKey) ∧
    (process_data [⟨1, "L", "c1", FVal.num 2⟩] [] []).merged.countP
      (fun r => URow.key r = ((1 : ℤ), "c1", "L")) = 1 :=
  ⟨by decide, (C1_join_completeness [⟨1, "L", "c1", FVal.num 2⟩] [] []).1 _ (by decide)⟩

/-- Witness for C2 at a concrete input. -/
theorem C2_ratio_null_policy_witness :
    ((⟨1, "c1", "L", 1, FVal.num 1, FVal.num 1, FVal.num 1, FVal.nan, FVal.nan,
        FVal.num 1, FVal.num 1, FVal.num 1, FVal.num 1⟩ : URow) ∈
      (process_data [⟨1, "L", "c1", FVal.num 1⟩]
        [⟨1, "c1", FVal.num 1, FVal.num 1, FVal.num 1⟩] []).merged) ∧
    (⟨1, "c1", "L", 1, FVal.num 1, FVal.num 1, FVal.num 1, FVal.nan, FVal.nan,
        FVal.num 1, FVal.num 1, FVal.num 1, FVal.num 1⟩ : URow).ctr ≠ FVal.pinf := by
  have hm : (⟨1, "c1", "L", 1, FVal.num 1, FVal.num 1, FVal.num 1, FVal.nan, FVal.nan,
      FVal.num 1, FVal.num 1, FVal.num 1, FVal.num 1⟩ : URow) ∈
      (process_data [⟨1, "L", "c1", FVal.num 1⟩]
        [⟨1, "c1", FVal.num 1, FVal.num 1, FVal.num 1⟩] []).merged := by
    norm_num [process_data, traffic_agg, clicks_agg, weather_agg, mkTrafficAgg, mkClicksAgg,
      mkWeatherAgg, merge1, merge2, expandClicks, expandWeather, addRatios, campaign_summary,
      mkCampaignRow, fsum, fmean, trafficKey, clicksKey, weatherKey, FVal.div, replaceInf,
      List.dedup, List.pwFilter, mkOverall]
  exact ⟨hm, (C2_ratio_null_policy _ _ _ _ hm).2.2.2.2.1.1⟩

/-- Witness for the amended C3 at a concrete input. -/
theorem C3_campaign_ratio_amended_witness :
    ((⟨"c1", 100, 0, 0, 5, FVal.num 0, FVal.pinf, FVal.nan, FVal.pinf⟩ : CampaignRow) ∈
      (process_data [⟨1, "L", "c1", FVal.num 100⟩]
        [⟨1, "c1", FVal.num 0, FVal.num 0, FVal.num 5⟩] []).campaigns) ∧
    (⟨"c1", 100, 0, 0, 5, FVal.num 0, FVal.pinf, FVal.nan, FVal.pinf⟩ : CampaignRow).cpc =
      FVal.pinf := by
  have hm : (⟨"c1", 100, 0, 0, 5, FVal.num 0, FVal.pinf, FVal.nan, FVal.pinf⟩ : CampaignRow) ∈
      (process_data [⟨1, "L", "c1", FVal.num 100⟩]
        [⟨1, "c1", FVal.num 0, FVal.num 0, FVal.num 5⟩] []).campaigns := by
    norm_num [process_data, traffic_agg, clicks_agg, weather_agg, mkTrafficAgg, mkClicksAgg,
      mkWeatherAgg, merge1, merge2, expandClicks, expandWeather, addRatios, campaign_summary,
      mkCampaignRow, fsum, fmean, trafficKey, clicksKey, weatherKey, FVal.div, replaceInf,
      List.dedup, List.pwFilter, mkOverall]
  refine ⟨hm, ?_⟩
  have h := (C3_campaign_ratio_amended _ _ _ _ hm).2.1 (by norm_num)
  rw [h]
  norm_num

/-- Witness for the amended C5 at a concrete input. -/
theorem C5_overall_zero_default_witness :
    (process_data [⟨1, "L", "c1", FVal.num 100⟩] [] []).overall.total_clicks = 0 ∧
    (process_data [⟨1, "L", "c1", FVal.num 100⟩] [] []).overall.overall_ctr = 0 := by
  have htc : (process_data [⟨1, "L", "c1", FVal.num 100⟩] [] []).overall.total_clicks = 0 := by
    norm_num [process_data, traffic_agg, clicks_agg, weather_agg, mkTrafficAgg, mkClicksAgg,
      mkWeatherAgg, merge1, merge2, expandClicks, expandWeather, addRatios, campaign_summary,
      mkCampaignRow, fsum, fmean, trafficKey, clicksKey, weatherKey, FVal.div, replaceInf,
      List.dedup, List.pwFilter, mkOverall]
  exact ⟨htc, (C5_overall_zero_default_amended _ _ _).2.2.2.2.2.1 htc⟩

/-- Witness for C7 at a concrete input. -/
theorem C7_anomaly_zero_guard_witness :
    ((⟨"L", 2, 0, 1, 100, none⟩ : Finding) ∈
      detectAnomaliesPdf
        ⟨true, true, true, false,
          [⟨1, "c1", "L", 1, FVal.nan, FVal.nan, FVal.nan, FVal.nan, FVal.nan,
             FVal.nan, FVal.nan, FVal.nan, FVal.nan⟩,
           ⟨2, "c1", "L", 0, FVal.nan, FVal.nan, FVal.nan, FVal.nan, FVal.nan,
             FVal.nan, FVal.nan, FVal.nan, FVal.nan⟩]⟩ default_drop_threshold) ∧
    (0 : ℚ) < (⟨"L", 2, 0, 1, 100, none⟩ : Finding).impressions_previous := by
  have hm : (⟨"L", 2, 0, 1, 100, none⟩ : Finding) ∈
      detectAnomaliesPdf
        ⟨true, true, true, false,
          [⟨1, "c1", "L", 1, FVal.nan, FVal.nan, FVal.nan, FVal.nan, FVal.nan,
             FVal.nan, FVal.nan, FVal.nan, FVal.nan⟩,
           ⟨2, "c1", "L", 0, FVal.nan, FVal.nan, FVal.nan, FVal.nan, FVal.nan,
             FVal.nan, FVal.nan, FVal.nan, FVal.nan⟩]⟩ default_drop_threshold := by
    norm_num [detectAnomaliesPdf, default_drop_threshold, dailyAgg, fsum, scanPairs,
      List.insertionSort, List.orderedInsert, List.dedup, List.pwFilter]
  exact ⟨hm, C7_anomaly_zero_guard _ _ _ hm⟩

/-- Witness for the amended C8 at a concrete input. -/
theorem C8_rainfall_attachment_witness :
    ((⟨"L", 2, 0, 1, 100, some (FVal.num 5)⟩ : Finding) ∈
      detectAnomaliesPdf
        ⟨true, true, true, true,
          [⟨1, "c1", "L", 1, FVal.nan, FVal.nan, FVal.nan, FVal.nan, FVal.num 7,
             FVal.nan, FVal.nan, FVal.nan, FVal.nan⟩,
           ⟨2, "c1", "L", 0, FVal.nan, FVal.nan, FVal.nan, FVal.nan, FVal.num 5,
             FVal.nan, FVal.nan, FVal.nan, FVal.nan⟩]⟩ default_drop_threshold) ∧
    (⟨"L", 2, 0, 1, 100, some (FVal.num 5)⟩ : Finding).rainfall = some (FVal.num 5) := by
  have hm : (⟨"L", 2, 0, 1, 100, some (FVal.num 5)⟩ : Finding) ∈
      detectAnomaliesPdf
        ⟨true, true, true, true,
          [⟨1, "c1", "L", 1, FVal.nan, FVal.nan, FVal.nan, FVal.nan, FVal.num 7,
             FVal.nan, FVal.nan, FVal.nan, FVal.nan⟩,
           ⟨2, "c1", "L", 0, FVal.nan, FVal.nan, FVal.nan, FVal.nan, FVal.num 5,
             FVal.nan, FVal.nan, FVal.nan, FVal.nan⟩]⟩ default_drop_threshold := by
    norm_num [detectAnomaliesPdf, default_drop_threshold, dailyAgg, fsum, fmean_singleton,
      scanPairs, List.insertionSort, List.orderedInsert, List.dedup, List.pwFilter]
  refine ⟨hm, ?_⟩
  have h := C8_rainfall_attachment_amended _ _ _ hm
  rw [h]
  norm_num [List.filter, fmean_singleton]

/-- C6: at the default threshold 3/10, a location whose per-day summed
impressions over two consecutive days are [100, 70] yields exactly one
anomaly finding, with drop_pct = 30 (the boundary relative change −3/10
satisfies the ≤ −threshold comparison), while [100, 71] yields no
finding. -/
theorem C6_anomaly_threshold_boundary :
    detectAnomaliesPdf
      ⟨true, true, true, false,
        [⟨1, "c1", "L", 100, FVal.nan, FVal.nan, FVal.nan, FVal.nan, FVal.nan,
           FVal.nan, FVal.nan, FVal.nan, FVal.nan⟩,
         ⟨2, "c1", "L", 70, FVal.nan, FVal.nan, FVal.nan, FVal.nan, FVal.nan,
           FVal.nan, FVal.nan, FVal.nan, FVal.nan⟩]⟩ default_drop_threshold =
      [⟨"L", 2, 70, 100, 30, none⟩] ∧
    detectAnomaliesPdf
      ⟨true, true, true, false,
        [⟨1, "c1", "L", 100, FVal.nan, FVal.nan, FVal.nan, FVal.nan, FVal.nan,
           FVal.nan, FVal.nan, FVal.nan, FVal.nan⟩,
         ⟨2, "c1", "L", 71, FVal.nan, FVal.nan, FVal.nan, FVal.nan, FVal.nan,
           FVal.nan, FVal.nan, FVal.nan, FVal.nan⟩]⟩ default_drop_threshold = [] := by
  constructor <;>
    norm_num [detectAnomaliesPdf, default_drop_threshold, dailyAgg, fsum, scanPairs,
      List.insertionSort, List.orderedInsert, List.dedup, List.pwFilter]

/-- C10: the _detect_anomalies routine of the PDF generator and the one of
the PPT generator return the same findings in the same order on every
unified dataset and threshold: the duplicated logic is behaviorally one
implementation. -/
theorem C10_detect_anomalies_duplicated_equal (df : UDF) (thr : ℚ) :
    detectAnomaliesPdf df thr = detectAnomaliesPpt df thr := rfl
